import Mathlib

/-!
Verification of the v2ray-core routing configuration code
(app/router/config.go and the generated transport/internet config file).

Go pointers are modelled as Option, Go slices as List, Go strings as
String, Go machine integers as Int or Nat (no arithmetic here ever
overflows the modelled ranges), and fallible Go constructors that live
outside the embedded files are modelled as abstract environment
functions recording success or failure.
-/

namespace V2Ray

/-- A CIDR entry as in the router proto: address bytes plus prefix length.
The Go field names are Ip and Prefix; the second is renamed prefixLen here. -/
structure CIDR where
  ip : List Nat
  prefixLen : Nat
  deriving DecidableEq, Repr

/-- CIDRList is an alias of a list of CIDR, as in the Go source. -/
abbrev CIDRList := List CIDR

/-- The byte-loop-then-prefix part of CIDRList.Less: walk the two byte
lists in lockstep, deciding at the first differing byte; when no byte
differs, compare the prefix lengths.  The Go loop runs only when both
addresses have equal length, which the caller guarantees. -/
def ipPrefLt : List Nat → List Nat → Nat → Nat → Bool
  | x :: xs, y :: ys, pa, pb =>
    if x < y then true
    else if y < x then false
    else ipPrefLt xs ys pa pb
  | _, _, pa, pb => decide (pa < pb)

/-- Element form of CIDRList.Less from config.go: shorter address first,
then the byte loop, then the prefix comparison. -/
def cidrLess (a b : CIDR) : Bool :=
  if a.ip.length < b.ip.length then true
  else if b.ip.length < a.ip.length then false
  else ipPrefLt a.ip b.ip a.prefixLen b.prefixLen

/-- Less implements sort.Interface: compare the entries at indices i and j. -/
def CIDRList.Less (l : CIDRList) (i j : Fin l.length) : Bool :=
  cidrLess (l.get i) (l.get j)

/-- Strict lexicographic comparison of byte lists (meaningful here only
for lists of equal length, as in the specified order). -/
def lexLt : List Nat → List Nat → Bool
  | x :: xs, y :: ys => decide (x < y) || (x == y && lexLt xs ys)
  | _, _ => false

/-- The order the specification describes: shorter address byte-length
first, then lexicographic comparison of the bytes, then ascending prefix
length. -/
def cidrPrecedes (a b : CIDR) : Prop :=
  a.ip.length < b.ip.length ∨
    (a.ip.length = b.ip.length ∧
      (lexLt a.ip b.ip = true ∨ (a.ip = b.ip ∧ a.prefixLen < b.prefixLen)))

theorem ipPrefLt_iff {xs ys : List Nat} (pa pb : Nat)
    (h : xs.length = ys.length) :
    ipPrefLt xs ys pa pb = true ↔
      (lexLt xs ys = true ∨ (xs = ys ∧ pa < pb)) := by
  induction xs generalizing ys with
  | nil =>
    cases ys with
    | nil => simp [ipPrefLt, lexLt]
    | cons y ys => simp at h
  | cons x xs ih =>
    cases ys with
    | nil => simp at h
    | cons y ys =>
      simp only [List.length_cons, Nat.succ.injEq] at h
      by_cases hxy : x < y
      · simp [ipPrefLt, lexLt, hxy]
      · by_cases hyx : y < x
        · have hne : ¬ x = y := by omega
          simp [ipPrefLt, lexLt, hxy, hyx, hne]
        · have hxeq : x = y := by omega
          subst hxeq
          simp only [ipPrefLt, if_neg hxy, if_neg hyx, lexLt]
          rw [ih h]
          simp

theorem cidrLess_iff (a b : CIDR) :
    cidrLess a b = true ↔ cidrPrecedes a b := by
  unfold cidrLess cidrPrecedes
  by_cases h1 : a.ip.length < b.ip.length
  · simp [h1]
  · by_cases h2 : b.ip.length < a.ip.length
    · have hne : ¬ a.ip.length = b.ip.length := by omega
      have hnp : ¬ a.ip = b.ip := fun he => hne (by rw [he])
      simp only [if_neg h1, if_pos h2]
      constructor
      · intro hfalse; exact absurd hfalse (by simp)
      · rintro (h | ⟨heq, _⟩) <;> [omega; exact absurd heq hne]
    · have heq : a.ip.length = b.ip.length := by omega
      simp only [if_neg h1, if_neg h2]
      rw [ipPrefLt_iff _ _ heq]
      constructor
      · rintro (h | h)
        · exact Or.inr ⟨heq, Or.inl h⟩
        · exact Or.inr ⟨heq, Or.inr h⟩
      · rintro (h | ⟨_, h⟩)
        · omega
        · exact h

theorem lexLt_asymm : ∀ {xs ys : List Nat},
    lexLt xs ys = true → lexLt ys xs = true → False
  | x :: xs, y :: ys, h1, h2 => by
    simp only [lexLt, Bool.or_eq_true, decide_eq_true_eq, Bool.and_eq_true,
      beq_iff_eq] at h1 h2
    rcases h1 with h1 | ⟨he1, h1⟩
    · rcases h2 with h2 | ⟨he2, h2⟩ <;> omega
    · rcases h2 with h2 | ⟨he2, h2⟩
      · omega
      · exact lexLt_asymm h1 h2
  | [], _, h1, _ => by simp [lexLt] at h1
  | _ :: _, [], h1, _ => by simp [lexLt] at h1

theorem lexLt_trans : ∀ {xs ys zs : List Nat},
    lexLt xs ys = true → lexLt ys zs = true → lexLt xs zs = true
  | x :: xs, y :: ys, z :: zs, h1, h2 => by
    simp only [lexLt, Bool.or_eq_true, decide_eq_true_eq, Bool.and_eq_true,
      beq_iff_eq] at h1 h2 ⊢
    rcases h1 with h1 | ⟨he1, h1⟩ <;> rcases h2 with h2 | ⟨he2, h2⟩
    · left; omega
    · left; omega
    · left; omega
    · right; exact ⟨by omega, lexLt_trans h1 h2⟩
  | [], _, _, h1, _ => by simp [lexLt] at h1
  | _ :: _, [], _, h1, _ => by simp [lexLt] at h1
  | _ :: _, _ :: _, [], _, h2 => by simp [lexLt] at h2

theorem lexLt_connex : ∀ {xs ys : List Nat}, xs.length = ys.length →
    lexLt xs ys = true ∨ lexLt ys xs = true ∨ xs = ys
  | [], [], _ => Or.inr (Or.inr rfl)
  | x :: xs, y :: ys, h => by
    have h' : xs.length = ys.length := by simpa using h
    rcases Nat.lt_trichotomy x y with hxy | hxy | hxy
    · left; simp [lexLt, hxy]
    · subst hxy
      rcases lexLt_connex h' with hr | hr | hr
      · left; simp [lexLt, hr]
      · right; left; simp [lexLt, hr]
      · right; right; rw [hr]
    · right; left; simp [lexLt, hxy]
  | [], _ :: _, h => by simp at h
  | _ :: _, [], h => by simp at h

theorem cidrLess_asymm {a b : CIDR}
    (h1 : cidrLess a b = true) (h2 : cidrLess b a = true) : False := by
  rw [cidrLess_iff] at h1 h2
  rcases h1 with h1 | ⟨he1, h1 | ⟨hip1, hp1⟩⟩ <;>
    rcases h2 with h2 | ⟨he2, h2 | ⟨hip2, hp2⟩⟩
  · omega
  · omega
  · omega
  · omega
  · exact lexLt_asymm h1 h2
  · rw [hip2] at h1; exact lexLt_asymm h1 h1
  · omega
  · rw [hip1] at h2; exact lexLt_asymm h2 h2
  · omega

theorem cidrLess_trans {a b c : CIDR}
    (h1 : cidrLess a b = true) (h2 : cidrLess b c = true) :
    cidrLess a c = true := by
  rw [cidrLess_iff] at h1 h2 ⊢
  rcases h1 with h1 | ⟨he1, h1⟩
  · rcases h2 with h2 | ⟨he2, h2⟩
    · left; omega
    · left; omega
  · rcases h2 with h2 | ⟨he2, h2⟩
    · left; omega
    · right
      refine ⟨by omega, ?_⟩
      rcases h1 with h1 | ⟨hip1, hp1⟩ <;> rcases h2 with h2 | ⟨hip2, hp2⟩
      · exact Or.inl (lexLt_trans h1 h2)
      · exact Or.inl (hip2 ▸ h1)
      · exact Or.inl (hip1 ▸ h2)
      · exact Or.inr ⟨hip1.trans hip2, by omega⟩

theorem cidrLess_trichotomy (a b : CIDR) :
    cidrLess a b = true ∨ cidrLess b a = true ∨ a = b := by
  by_cases hlen : a.ip.length = b.ip.length
  · rcases lexLt_connex hlen with h | h | h
    · exact Or.inl ((cidrLess_iff a b).mpr (Or.inr ⟨hlen, Or.inl h⟩))
    · exact Or.inr (Or.inl
        ((cidrLess_iff b a).mpr (Or.inr ⟨hlen.symm, Or.inl h⟩)))
    · rcases Nat.lt_trichotomy a.prefixLen b.prefixLen with hp | hp | hp
      · exact Or.inl ((cidrLess_iff a b).mpr (Or.inr ⟨hlen, Or.inr ⟨h, hp⟩⟩))
      · refine Or.inr (Or.inr ?_)
        cases a; cases b; simp_all
      · exact Or.inr (Or.inl
          ((cidrLess_iff b a).mpr (Or.inr ⟨hlen.symm, Or.inr ⟨h.symm, hp⟩⟩)))
  · rcases Nat.lt_or_ge a.ip.length b.ip.length with h | h
    · exact Or.inl ((cidrLess_iff a b).mpr (Or.inl h))
    · have : b.ip.length < a.ip.length := by omega
      exact Or.inr (Or.inl ((cidrLess_iff b a).mpr (Or.inl this)))

/-- The non-strict closure of the CIDR order: less-than or equal entries. -/
def cidrLE (a b : CIDR) : Bool := cidrLess a b || a == b

/-- The comparison the sorting routine establishes between consecutive
entries: entry b does not strictly precede entry a. -/
def cidrSortLE (a b : CIDR) : Bool := ! cidrLess b a

/-- Sorting a CIDRList with the order given by Less.  Modelled from the
spec: the Go code delegates the sort itself to the standard library via
the Len, Less and Swap methods of sort.Interface. -/
def sortCIDR (l : CIDRList) : CIDRList := l.mergeSort cidrSortLE

theorem cidrSortLE_trans {a b c : CIDR}
    (h1 : cidrSortLE a b = true) (h2 : cidrSortLE b c = true) :
    cidrSortLE a c = true := by
  simp only [cidrSortLE, Bool.not_eq_true'] at h1 h2 ⊢
  have n1 : ¬ cidrLess b a = true := by simp [h1]
  have n2 : ¬ cidrLess c b = true := by simp [h2]
  by_contra hca
  have hca' : cidrLess c a = true := by
    revert hca; cases cidrLess c a <;> simp
  rcases cidrLess_trichotomy b c with h3 | h3 | h3
  · exact n1 (cidrLess_trans h3 hca')
  · exact n2 h3
  · exact n1 (h3 ▸ hca')

theorem cidrSortLE_total (a b : CIDR) :
    (cidrSortLE a b || cidrSortLE b a) = true := by
  cases h1 : cidrLess b a with
  | false => simp [cidrSortLE, h1]
  | true =>
    cases h2 : cidrLess a b with
    | false => simp [cidrSortLE, h1, h2]
    | true => exact (cidrLess_asymm h2 h1).elim

theorem sortCIDR_idem (l : CIDRList) : sortCIDR (sortCIDR l) = sortCIDR l :=
  List.mergeSort_of_sorted
    (@List.sorted_mergeSort CIDR cidrSortLE
      (fun _ _ _ h1 h2 => cidrSortLE_trans h1 h2) cidrSortLE_total l)

/-- C3: for every pair of entries at indices i and j of a CIDRList,
Less i j is true exactly when entry i precedes entry j in the order
shorter-address-length first, then lexicographic byte comparison, then
ascending prefix length; entries equal in length, bytes and prefix
compare false. -/
theorem claim_C3 :
    (∀ (l : CIDRList) (i j : Fin l.length),
      CIDRList.Less l i j = true ↔ cidrPrecedes (l.get i) (l.get j)) ∧
    (∀ (l : CIDRList) (i j : Fin l.length),
      l.get i = l.get j → CIDRList.Less l i j = false) := by
  constructor
  · intro l i j; exact cidrLess_iff _ _
  · intro l i j h
    unfold CIDRList.Less
    rw [h]
    cases hv : cidrLess (l.get j) (l.get j) with
    | false => rfl
    | true => exact (cidrLess_asymm hv hv).elim

theorem claim_C3_witness :
    CIDRList.Less [⟨[1], 2⟩, ⟨[1], 2⟩] ⟨0, by decide⟩ ⟨1, by decide⟩ = false :=
  claim_C3.2 _ _ _ rfl

/-- C4: the order induced by CIDRList.Less is total (its non-strict
closure is reflexive and antisymmetric, and any two distinct entries are
comparable), and sorting a CIDRList with this order is idempotent. -/
theorem claim_C4 :
    (∀ a : CIDR, cidrLE a a = true) ∧
    (∀ a b : CIDR, cidrLE a b = true → cidrLE b a = true → a = b) ∧
    (∀ a b : CIDR, cidrLess a b = true ∨ cidrLess b a = true ∨ a = b) ∧
    (∀ l : CIDRList, sortCIDR (sortCIDR l) = sortCIDR l) := by
  refine ⟨?_, ?_, cidrLess_trichotomy, sortCIDR_idem⟩
  · intro a; simp [cidrLE]
  · intro a b h1 h2
    simp only [cidrLE, Bool.or_eq_true, beq_iff_eq] at h1 h2
    rcases h1 with h1 | h1
    · rcases h2 with h2 | h2
      · exact (cidrLess_asymm h1 h2).elim
      · exact h2.symm
    · exact h1

theorem claim_C4_witness :
    (⟨[1, 2], 3⟩ : CIDR) = ⟨[1, 2], 3⟩ ∧
    sortCIDR (sortCIDR [⟨[9], 1⟩, ⟨[1, 2], 3⟩, ⟨[1], 0⟩]) =
      sortCIDR [⟨[9], 1⟩, ⟨[1, 2], 3⟩, ⟨[1], 0⟩] :=
  ⟨claim_C4.2.1 ⟨[1, 2], 3⟩ ⟨[1, 2], 3⟩ (by decide) (by decide),
   claim_C4.2.2.2 [⟨[9], 1⟩, ⟨[1, 2], 3⟩, ⟨[1], 0⟩]⟩

/-- Modelled from the spec: outbound.Manager is the external outbound
registry handle; the routing code only stores and passes it, so it is
opaque here. -/
structure OutboundManager where
  handle : Nat
  deriving DecidableEq, Repr

/-- Modelled from the spec: the latency strategy owns a background
prober and health records; its internals are outside the embedded file,
so its value is opaque here. -/
structure LatencyStrategy where
  handle : Nat
  deriving DecidableEq, Repr

/-- The two balancing strategies the build code can instantiate. -/
inductive BalancingStrategy where
  | random : BalancingStrategy
  | latency : LatencyStrategy → BalancingStrategy
  deriving DecidableEq, Repr

/-- A Balancer as constructed in config.go: selectors, a possibly nil
strategy interface, and the registry handle. -/
structure Balancer where
  selectors : List String
  strategy : Option BalancingStrategy
  ohm : OutboundManager
  deriving DecidableEq, Repr

/-- A Rule as in config.go: a fixed tag, an optional Balancer, and a
Condition (irrelevant to GetTag and omitted here). -/
structure Rule where
  tag : String
  balancer : Option Balancer

/-- Rule.GetTag from config.go.  Balancer.PickOutbound lives outside the
embedded file, so the method dispatch is modelled by the explicit
function argument pick. -/
def Rule.GetTag (pick : Balancer → Except String String) (r : Rule) :
    Except String String :=
  match r.balancer with
  | some b => pick b
  | none => Except.ok r.tag

/-- C5: GetTag resolves through the Balancer when one is present,
returning exactly the result of PickOutbound, and otherwise returns the
rule's fixed Tag with a nil error. -/
theorem claim_C5 :
    (∀ (pick : Balancer → Except String String) (t : String) (b : Balancer),
      Rule.GetTag pick ⟨t, some b⟩ = pick b) ∧
    (∀ (pick : Balancer → Except String String) (t : String),
      Rule.GetTag pick ⟨t, none⟩ = Except.ok t) :=
  ⟨fun _ _ _ => rfl, fun _ _ => rfl⟩

/-- C9: GetTag does not enforce that exactly one of tag and balancer is
set: with both populated the tag is ignored in favour of the balancer's
pick, and with neither populated it returns the empty string with a nil
error rather than an error. -/
theorem claim_C9 :
    (∀ (pick : Balancer → Except String String) (t : String) (b : Balancer),
      Rule.GetTag pick ⟨t, some b⟩ = pick b) ∧
    (∀ (pick : Balancer → Except String String),
      Rule.GetTag pick ⟨"", none⟩ = Except.ok "") :=
  ⟨fun _ _ _ => rfl, fun _ => rfl⟩

/-- The BalancingRule description fields used by Build.  The strategy
kind is the raw proto enum value; Random and Latency are its two named
constants. -/
structure BalancingRule where
  balancingStrategy : Int
  outboundSelector : List String
  totalMeasures : Int
  interval : Int
  delay : Int
  timeout : Int
  tolerance : Int
  probeTarget : String
  probeContent : String

def BalancingRule_Random : Int := 0

def BalancingRule_Latency : Int := 1

/-- Nanoseconds in a second and in a millisecond: the factors the Go
code applies through time.Duration multiplication. -/
def nsPerSecond : Int := 1000000000

def nsPerMillisecond : Int := 1000000

/-- Modelled from the spec: NewLatencyStrategy lives outside the
embedded file; it takes the registry handle, the selectors and the seven
tuning parameters (total measures, interval, delay, timeout, tolerance,
probe target, probe content) and may return nil. -/
structure StrategyEnv where
  newLatencyStrategy : OutboundManager → List String → Int → Int → Int →
    Int → Int → String → String → Option LatencyStrategy

/-- BalancingRule.Build from config.go: pick the strategy by the enum
value (the latency constructor result is used only when non-nil) and
always return a Balancer with the rule's selectors and the supplied
registry handle, with a nil error. -/
def BalancingRule.build (env : StrategyEnv) (ohm : OutboundManager)
    (br : BalancingRule) : Except String Balancer :=
  let strategy : Option BalancingStrategy :=
    if br.balancingStrategy = BalancingRule_Random then
      some BalancingStrategy.random
    else none
  let strategy : Option BalancingStrategy :=
    if br.balancingStrategy = BalancingRule_Latency then
      match env.newLatencyStrategy ohm br.outboundSelector br.totalMeasures
          (br.interval * nsPerSecond) (br.delay * nsPerSecond)
          (br.timeout * nsPerSecond) (br.tolerance * nsPerMillisecond)
          br.probeTarget br.probeContent with
      | some ls => some (BalancingStrategy.latency ls)
      | none => strategy
    else strategy
  Except.ok { selectors := br.outboundSelector, strategy := strategy, ohm := ohm }

/-- Modelled from the spec: the strategy a balancing rule description
asks for — a RandomStrategy for the Random kind, and for the Latency
kind the latency strategy built from the description's tuning
parameters, when that constructor yields one. -/
def expectedStrategy (env : StrategyEnv) (ohm : OutboundManager)
    (br : BalancingRule) : Option BalancingStrategy :=
  if br.balancingStrategy = BalancingRule_Random then
    some BalancingStrategy.random
  else if br.balancingStrategy = BalancingRule_Latency then
    Option.map BalancingStrategy.latency
      (env.newLatencyStrategy ohm br.outboundSelector br.totalMeasures
        (br.interval * nsPerSecond) (br.delay * nsPerSecond)
        (br.timeout * nsPerSecond) (br.tolerance * nsPerMillisecond)
        br.probeTarget br.probeContent)
  else none

theorem build_eq (env : StrategyEnv) (ohm : OutboundManager)
    (br : BalancingRule) :
    BalancingRule.build env ohm br = Except.ok
      { selectors := br.outboundSelector
        strategy := expectedStrategy env ohm br
        ohm := ohm } := by
  unfold BalancingRule.build expectedStrategy
  by_cases h0 : br.balancingStrategy = BalancingRule_Random
  · have h1 : ¬ br.balancingStrategy = BalancingRule_Latency := by
      unfold BalancingRule_Random at h0
      unfold BalancingRule_Latency
      omega
    simp only [if_pos h0, if_neg h1]
  · by_cases h1 : br.balancingStrategy = BalancingRule_Latency
    · simp only [if_neg h0, if_pos h1]
      cases env.newLatencyStrategy ohm br.outboundSelector br.totalMeasures
          (br.interval * nsPerSecond) (br.delay * nsPerSecond)
          (br.timeout * nsPerSecond) (br.tolerance * nsPerMillisecond)
          br.probeTarget br.probeContent <;> rfl
    · simp [h0, h1]

/-- C7: Build returns a Balancer holding exactly the description's
selectors and the supplied registry handle, with a RandomStrategy for
the Random kind and, for the Latency kind, the latency strategy
constructed from the description's tuning parameters. -/
theorem claim_C7 (env : StrategyEnv) (ohm : OutboundManager)
    (br : BalancingRule) :
    BalancingRule.build env ohm br = Except.ok
      { selectors := br.outboundSelector
        strategy := expectedStrategy env ohm br
        ohm := ohm } :=
  build_eq env ohm br

/-- C8: Build never fails: for an unrecognised strategy kind, and for
the Latency kind when the latency constructor yields nil, it still
returns a Balancer whose strategy is nil rather than an error. -/
theorem claim_C8 :
    (∀ (env : StrategyEnv) (ohm : OutboundManager) (br : BalancingRule),
      ∃ b, BalancingRule.build env ohm br = Except.ok b) ∧
    (∀ (env : StrategyEnv) (ohm : OutboundManager) (br : BalancingRule),
      br.balancingStrategy ≠ BalancingRule_Random →
      br.balancingStrategy ≠ BalancingRule_Latency →
      BalancingRule.build env ohm br = Except.ok
        { selectors := br.outboundSelector, strategy := none, ohm := ohm }) ∧
    (∀ (env : StrategyEnv) (ohm : OutboundManager) (br : BalancingRule),
      br.balancingStrategy = BalancingRule_Latency →
      env.newLatencyStrategy ohm br.outboundSelector br.totalMeasures
        (br.interval * nsPerSecond) (br.delay * nsPerSecond)
        (br.timeout * nsPerSecond) (br.tolerance * nsPerMillisecond)
        br.probeTarget br.probeContent = none →
      BalancingRule.build env ohm br = Except.ok
        { selectors := br.outboundSelector, strategy := none, ohm := ohm }) := by
  refine ⟨fun env ohm br => ⟨_, build_eq env ohm br⟩, ?_, ?_⟩
  · intro env ohm br h0 h1
    rw [build_eq env ohm br]
    simp [expectedStrategy, h0, h1]
  · intro env ohm br h1 hctor
    rw [build_eq env ohm br]
    have h0 : ¬ br.balancingStrategy = BalancingRule_Random := by
      rw [h1]; decide
    unfold expectedStrategy
    rw [if_neg h0, if_pos h1, hctor]
    rfl

theorem claim_C8_witness :
    BalancingRule.build ⟨fun _ _ _ _ _ _ _ _ _ => none⟩ ⟨0⟩
      ⟨5, ["outA"], 0, 0, 0, 0, 0, "", ""⟩ =
      Except.ok { selectors := ["outA"], strategy := none, ohm := ⟨0⟩ } ∧
    BalancingRule.build ⟨fun _ _ _ _ _ _ _ _ _ => none⟩ ⟨0⟩
      ⟨1, ["outA"], 0, 0, 0, 0, 0, "", ""⟩ =
      Except.ok { selectors := ["outA"], strategy := none, ohm := ⟨0⟩ } :=
  ⟨claim_C8.2.1 ⟨fun _ _ _ _ _ _ _ _ _ => none⟩ ⟨0⟩
      ⟨5, ["outA"], 0, 0, 0, 0, 0, "", ""⟩ (by decide) (by decide),
   claim_C8.2.2 ⟨fun _ _ _ _ _ _ _ _ _ => none⟩ ⟨0⟩
      ⟨1, ["outA"], 0, 0, 0, 0, 0, "", ""⟩ rfl rfl⟩

/-- A domain pattern: matching kind plus the pattern text. -/
structure Domain where
  dtype : Int
  value : String
  deriving DecidableEq, Repr

structure PortRange where
  fromPort : Nat
  toPort : Nat
  deriving DecidableEq, Repr

structure PortList where
  range : List PortRange
  deriving DecidableEq, Repr

structure Network where
  value : Int
  deriving DecidableEq, Repr

structure NetworkList where
  network : List Network
  deriving DecidableEq, Repr

/-- A named GeoIP list: country code plus its CIDR entries. -/
structure GeoIP where
  countryCode : String
  cidr : List CIDR
  deriving DecidableEq, Repr

/-- The RoutingRule description fields read by BuildCondition. -/
structure RoutingRule where
  domain : List Domain
  userEmail : List String
  inboundTag : List String
  portList : Option PortList
  portRange : Option PortRange
  networks : List Network
  networkList : Option NetworkList
  geoip : List GeoIP
  cidr : List CIDR
  sourceGeoip : List GeoIP
  sourceCidr : List CIDR
  customGeoip : List String
  protocol : List String
  attributes : String
  application : List String

/-- One matcher of the AND-chain, identified by the constructor the Go
code calls and the arguments it passes. -/
inductive Matcher where
  | domainMatcher : List Domain → Matcher
  | userMatcher : List String → Matcher
  | inboundTagMatcher : List String → Matcher
  | portMatcher : PortList → Matcher
  | networkMatcher : List Network → Matcher
  | multiGeoIPMatcher : List GeoIP → Bool → Matcher
  | customGeoIPMatcher : List String → Bool → Matcher
  | protocolMatcher : List String → Matcher
  | attributeMatcher : String → Matcher
  | applicationMatcher : List String → Matcher
  deriving DecidableEq, Repr

/-- Modelled from the spec: the three fallible submatcher constructors
(NewDomainMatcher, NewMultiGeoIPMatcher, NewAttributeMatcher) live
outside the embedded file; each is abstracted by the error it reports,
none meaning success. -/
structure MatcherEnv where
  domainErr : List Domain → Option String
  geoipErr : List GeoIP → Bool → Option String
  attrErr : String → Option String

/-- The domain block of BuildCondition. -/
def condDomain (env : MatcherEnv) (rr : RoutingRule) (conds : List Matcher) :
    Except String (List Matcher) :=
  if 0 < rr.domain.length then
    match env.domainErr rr.domain with
    | some e => Except.error ("failed to build domain condition > " ++ e)
    | none => Except.ok (conds ++ [Matcher.domainMatcher rr.domain])
  else Except.ok conds

/-- The user-email block of BuildCondition. -/
def condUser (rr : RoutingRule) (conds : List Matcher) :
    Except String (List Matcher) :=
  if 0 < rr.userEmail.length then
    Except.ok (conds ++ [Matcher.userMatcher rr.userEmail])
  else Except.ok conds

/-- The inbound-tag block of BuildCondition. -/
def condInboundTag (rr : RoutingRule) (conds : List Matcher) :
    Except String (List Matcher) :=
  if 0 < rr.inboundTag.length then
    Except.ok (conds ++ [Matcher.inboundTagMatcher rr.inboundTag])
  else Except.ok conds

/-- The port block: an explicit PortList wins over a single PortRange,
which is wrapped into a one-range PortList. -/
def condPort (rr : RoutingRule) (conds : List Matcher) :
    Except String (List Matcher) :=
  match rr.portList with
  | some pl => Except.ok (conds ++ [Matcher.portMatcher pl])
  | none =>
    match rr.portRange with
    | some pr => Except.ok (conds ++ [Matcher.portMatcher ⟨[pr]⟩])
    | none => Except.ok conds

/-- The network block: an explicit Networks list wins over a NetworkList. -/
def condNetwork (rr : RoutingRule) (conds : List Matcher) :
    Except String (List Matcher) :=
  if 0 < rr.networks.length then
    Except.ok (conds ++ [Matcher.networkMatcher rr.networks])
  else
    match rr.networkList with
    | some nl => Except.ok (conds ++ [Matcher.networkMatcher nl.network])
    | none => Except.ok conds

/-- The destination-address block: named GeoIP lists win over raw CIDR
entries, which are wrapped into a single anonymous GeoIP list. -/
def condDstIP (env : MatcherEnv) (rr : RoutingRule) (conds : List Matcher) :
    Except String (List Matcher) :=
  if 0 < rr.geoip.length then
    match env.geoipErr rr.geoip false with
    | some e => Except.error e
    | none => Except.ok (conds ++ [Matcher.multiGeoIPMatcher rr.geoip false])
  else if 0 < rr.cidr.length then
    match env.geoipErr [⟨"", rr.cidr⟩] false with
    | some e => Except.error e
    | none => Except.ok (conds ++ [Matcher.multiGeoIPMatcher [⟨"", rr.cidr⟩] false])
  else Except.ok conds

/-- The source-address block, same shape as the destination block with
the source flag set. -/
def condSrcIP (env : MatcherEnv) (rr : RoutingRule) (conds : List Matcher) :
    Except String (List Matcher) :=
  if 0 < rr.sourceGeoip.length then
    match env.geoipErr rr.sourceGeoip true with
    | some e => Except.error e
    | none => Except.ok (conds ++ [Matcher.multiGeoIPMatcher rr.sourceGeoip true])
  else if 0 < rr.sourceCidr.length then
    match env.geoipErr [⟨"", rr.sourceCidr⟩] true with
    | some e => Except.error e
    | none => Except.ok (conds ++ [Matcher.multiGeoIPMatcher [⟨"", rr.sourceCidr⟩] true])
  else Except.ok conds

/-- The custom-GeoIP block (always built with the destination flag). -/
def condCustomGeoip (rr : RoutingRule) (conds : List Matcher) :
    Except String (List Matcher) :=
  if 0 < rr.customGeoip.length then
    Except.ok (conds ++ [Matcher.customGeoIPMatcher rr.customGeoip false])
  else Except.ok conds

/-- The protocol block of BuildCondition. -/
def condProtocol (rr : RoutingRule) (conds : List Matcher) :
    Except String (List Matcher) :=
  if 0 < rr.protocol.length then
    Except.ok (conds ++ [Matcher.protocolMatcher rr.protocol])
  else Except.ok conds

/-- The attribute block of BuildCondition. -/
def condAttributes (env : MatcherEnv) (rr : RoutingRule)
    (conds : List Matcher) : Except String (List Matcher) :=
  if 0 < rr.attributes.length then
    match env.attrErr rr.attributes with
    | some e => Except.error e
    | none => Except.ok (conds ++ [Matcher.attributeMatcher rr.attributes])
  else Except.ok conds

/-- The application block of BuildCondition. -/
def condApplication (rr : RoutingRule) (conds : List Matcher) :
    Except String (List Matcher) :=
  if 0 < rr.application.length then
    Except.ok (conds ++ [Matcher.applicationMatcher rr.application])
  else Except.ok conds

/-- The final emptiness check of BuildCondition. -/
def finishConds (conds : List Matcher) : Except String (List Matcher) :=
  if conds.length = 0 then Except.error "this rule has no effective fields"
  else Except.ok conds

/-- RoutingRule.BuildCondition from config.go: run the blocks in source
order over the growing AND-chain, then reject an empty chain. -/
def RoutingRule.BuildCondition (env : MatcherEnv) (rr : RoutingRule) :
    Except String (List Matcher) :=
  condDomain env rr [] >>= condUser rr >>= condInboundTag rr >>=
    condPort rr >>= condNetwork rr >>= condDstIP env rr >>=
    condSrcIP env rr >>= condCustomGeoip rr >>= condProtocol rr >>=
    condAttributes env rr >>= condApplication rr >>= finishConds

/-- The matcher a populated domain field implies. -/
def expDomain (rr : RoutingRule) : List Matcher :=
  if rr.domain ≠ [] then [Matcher.domainMatcher rr.domain] else []

/-- The matcher a populated user-email field implies. -/
def expUser (rr : RoutingRule) : List Matcher :=
  if rr.userEmail ≠ [] then [Matcher.userMatcher rr.userEmail] else []

/-- The matcher a populated inbound-tag field implies. -/
def expInboundTag (rr : RoutingRule) : List Matcher :=
  if rr.inboundTag ≠ [] then [Matcher.inboundTagMatcher rr.inboundTag] else []

/-- The port matcher: an explicit PortList takes precedence over a
single PortRange. -/
def expPort (rr : RoutingRule) : List Matcher :=
  match rr.portList with
  | some pl => [Matcher.portMatcher pl]
  | none =>
    match rr.portRange with
    | some pr => [Matcher.portMatcher ⟨[pr]⟩]
    | none => []

/-- The network matcher: an explicit Networks list takes precedence
over a NetworkList. -/
def expNetwork (rr : RoutingRule) : List Matcher :=
  if rr.networks ≠ [] then [Matcher.networkMatcher rr.networks]
  else
    match rr.networkList with
    | some nl => [Matcher.networkMatcher nl.network]
    | none => []

/-- The destination-address matcher: named GeoIP lists take precedence
over raw CIDR entries. -/
def expDstIP (rr : RoutingRule) : List Matcher :=
  if rr.geoip ≠ [] then [Matcher.multiGeoIPMatcher rr.geoip false]
  else if rr.cidr ≠ [] then [Matcher.multiGeoIPMatcher [⟨"", rr.cidr⟩] false]
  else []

/-- The source-address matcher: named GeoIP lists take precedence over
raw CIDR entries. -/
def expSrcIP (rr : RoutingRule) : List Matcher :=
  if rr.sourceGeoip ≠ [] then [Matcher.multiGeoIPMatcher rr.sourceGeoip true]
  else if rr.sourceCidr ≠ [] then
    [Matcher.multiGeoIPMatcher [⟨"", rr.sourceCidr⟩] true]
  else []

/-- The matcher a populated custom-GeoIP field implies. -/
def expCustomGeoip (rr : RoutingRule) : List Matcher :=
  if rr.customGeoip ≠ [] then
    [Matcher.customGeoIPMatcher rr.customGeoip false]
  else []

/-- The matcher a populated protocol field implies. -/
def expProtocol (rr : RoutingRule) : List Matcher :=
  if rr.protocol ≠ [] then [Matcher.protocolMatcher rr.protocol] else []

/-- The matcher a populated attribute expression implies. -/
def expAttributes (rr : RoutingRule) : List Matcher :=
  if rr.attributes ≠ "" then [Matcher.attributeMatcher rr.attributes] else []

/-- The matcher a populated application field implies. -/
def expApplication (rr : RoutingRule) : List Matcher :=
  if rr.application ≠ [] then
    [Matcher.applicationMatcher rr.application]
  else []

/-- Modelled from the spec: exactly the matchers implied by populated
fields, in the fixed precedence order domain, user, inbound-tag, port,
network, destination GeoIP/CIDR, source GeoIP/CIDR, custom-GeoIP,
protocol, attribute-script, application. -/
def expectedMatchers (rr : RoutingRule) : List Matcher :=
  expDomain rr ++ expUser rr ++ expInboundTag rr ++ expPort rr ++
    expNetwork rr ++ expDstIP rr ++ expSrcIP rr ++ expCustomGeoip rr ++
    expProtocol rr ++ expAttributes rr ++ expApplication rr

theorem ok_bind {α β : Type} (a : α) (f : α → Except String β) :
    (Except.ok a >>= f) = f a := rfl

theorem string_length_pos (s : String) : 0 < s.length ↔ s ≠ "" := by
  cases s with
  | mk data =>
    cases data with
    | nil => simp [String.length]
    | cons c cs =>
      simp only [String.length]
      constructor
      · intro _ h
        have : (c :: cs : List Char) = [] := congrArg String.data h
        simp at this
      · intro _; simp

theorem condDomain_ok (env : MatcherEnv) (rr : RoutingRule)
    (conds : List Matcher) (h : env.domainErr rr.domain = none) :
    condDomain env rr conds = Except.ok (conds ++ expDomain rr) := by
  unfold condDomain expDomain
  by_cases hd : rr.domain = []
  · simp [hd]
  · simp [List.length_pos.mpr hd, hd, h]

theorem condUser_ok (rr : RoutingRule) (conds : List Matcher) :
    condUser rr conds = Except.ok (conds ++ expUser rr) := by
  unfold condUser expUser
  by_cases hd : rr.userEmail = []
  · simp [hd]
  · simp [List.length_pos.mpr hd, hd]

theorem condInboundTag_ok (rr : RoutingRule) (conds : List Matcher) :
    condInboundTag rr conds = Except.ok (conds ++ expInboundTag rr) := by
  unfold condInboundTag expInboundTag
  by_cases hd : rr.inboundTag = []
  · simp [hd]
  · simp [List.length_pos.mpr hd, hd]

theorem condPort_ok (rr : RoutingRule) (conds : List Matcher) :
    condPort rr conds = Except.ok (conds ++ expPort rr) := by
  unfold condPort expPort
  cases rr.portList with
  | some pl => rfl
  | none => cases rr.portRange with
    | some pr => rfl
    | none => simp

theorem condNetwork_ok (rr : RoutingRule) (conds : List Matcher) :
    condNetwork rr conds = Except.ok (conds ++ expNetwork rr) := by
  unfold condNetwork expNetwork
  by_cases hd : rr.networks = []
  · cases rr.networkList with
    | some nl => simp [hd]
    | none => simp [hd]
  · simp [List.length_pos.mpr hd, hd]

theorem condDstIP_ok (env : MatcherEnv) (rr : RoutingRule)
    (conds : List Matcher) (hg : env.geoipErr rr.geoip false = none)
    (hc : env.geoipErr [⟨"", rr.cidr⟩] false = none) :
    condDstIP env rr conds = Except.ok (conds ++ expDstIP rr) := by
  unfold condDstIP expDstIP
  by_cases h1 : rr.geoip = []
  · by_cases h2 : rr.cidr = []
    · simp [h1, h2]
    · simp [h1, List.length_pos.mpr h2, h2, hc]
  · simp [List.length_pos.mpr h1, h1, hg]

theorem condSrcIP_ok (env : MatcherEnv) (rr : RoutingRule)
    (conds : List Matcher) (hg : env.geoipErr rr.sourceGeoip true = none)
    (hc : env.geoipErr [⟨"", rr.sourceCidr⟩] true = none) :
    condSrcIP env rr conds = Except.ok (conds ++ expSrcIP rr) := by
  unfold condSrcIP expSrcIP
  by_cases h1 : rr.sourceGeoip = []
  · by_cases h2 : rr.sourceCidr = []
    · simp [h1, h2]
    · simp [h1, List.length_pos.mpr h2, h2, hc]
  · simp [List.length_pos.mpr h1, h1, hg]

theorem condCustomGeoip_ok (rr : RoutingRule) (conds : List Matcher) :
    condCustomGeoip rr conds = Except.ok (conds ++ expCustomGeoip rr) := by
  unfold condCustomGeoip expCustomGeoip
  by_cases hd : rr.customGeoip = []
  · simp [hd]
  · simp [List.length_pos.mpr hd, hd]

theorem condProtocol_ok (rr : RoutingRule) (conds : List Matcher) :
    condProtocol rr conds = Except.ok (conds ++ expProtocol rr) := by
  unfold condProtocol expProtocol
  by_cases hd : rr.protocol = []
  · simp [hd]
  · simp [List.length_pos.mpr hd, hd]

theorem condAttributes_ok (env : MatcherEnv) (rr : RoutingRule)
    (conds : List Matcher) (h : env.attrErr rr.attributes = none) :
    condAttributes env rr conds = Except.ok (conds ++ expAttributes rr) := by
  unfold condAttributes expAttributes
  by_cases hd : rr.attributes = ""
  · simp [hd, String.length]
  · simp [(string_length_pos rr.attributes).mpr hd, hd, h]

theorem condApplication_ok (rr : RoutingRule) (conds : List Matcher) :
    condApplication rr conds = Except.ok (conds ++ expApplication rr) := by
  unfold condApplication expApplication
  by_cases hd : rr.application = []
  · simp [hd]
  · simp [List.length_pos.mpr hd, hd]

/-- C1: a rule description in which no matcher field is populated fails
construction with the no-effective-fields error; it never yields a
condition. -/
theorem claim_C1 (env : MatcherEnv) (rr : RoutingRule)
    (h1 : rr.domain = []) (h2 : rr.userEmail = []) (h3 : rr.inboundTag = [])
    (h4 : rr.portList = none) (h5 : rr.portRange = none)
    (h6 : rr.networks = []) (h7 : rr.networkList = none)
    (h8 : rr.geoip = []) (h9 : rr.cidr = [])
    (h10 : rr.sourceGeoip = []) (h11 : rr.sourceCidr = [])
    (h12 : rr.customGeoip = []) (h13 : rr.protocol = [])
    (h14 : rr.attributes = "") (h15 : rr.application = []) :
    RoutingRule.BuildCondition env rr =
      Except.error "this rule has no effective fields" := by
  have s1 : condDomain env rr [] = Except.ok [] := by
    unfold condDomain; simp [h1]
  have s2 : ∀ c, condUser rr c = Except.ok c := by
    intro c; unfold condUser; simp [h2]
  have s3 : ∀ c, condInboundTag rr c = Except.ok c := by
    intro c; unfold condInboundTag; simp [h3]
  have s4 : ∀ c, condPort rr c = Except.ok c := by
    intro c; unfold condPort; simp [h4, h5]
  have s5 : ∀ c, condNetwork rr c = Except.ok c := by
    intro c; unfold condNetwork; simp [h6, h7]
  have s6 : ∀ c, condDstIP env rr c = Except.ok c := by
    intro c; unfold condDstIP; simp [h8, h9]
  have s7 : ∀ c, condSrcIP env rr c = Except.ok c := by
    intro c; unfold condSrcIP; simp [h10, h11]
  have s8 : ∀ c, condCustomGeoip rr c = Except.ok c := by
    intro c; unfold condCustomGeoip; simp [h12]
  have s9 : ∀ c, condProtocol rr c = Except.ok c := by
    intro c; unfold condProtocol; simp [h13]
  have s10 : ∀ c, condAttributes env rr c = Except.ok c := by
    intro c; unfold condAttributes; simp [h14, String.length]
  have s11 : ∀ c, condApplication rr c = Except.ok c := by
    intro c; unfold condApplication; simp [h15]
  unfold RoutingRule.BuildCondition
  rw [s1, ok_bind, s2, ok_bind, s3, ok_bind, s4, ok_bind, s5, ok_bind,
    s6, ok_bind, s7, ok_bind, s8, ok_bind, s9, ok_bind, s10, ok_bind,
    s11, ok_bind]
  rfl

theorem claim_C1_witness :
    RoutingRule.BuildCondition
      ⟨fun _ => none, fun _ _ => none, fun _ => none⟩
      ⟨[], [], [], none, none, [], none, [], [], [], [], [], [], "", []⟩ =
      Except.error "this rule has no effective fields" :=
  claim_C1 _ _ rfl rfl rfl rfl rfl rfl rfl rfl rfl rfl rfl rfl rfl rfl rfl

/-- C2: when every invoked submatcher constructor succeeds and at least
one field is populated, BuildCondition returns exactly the matchers
implied by the populated fields, in the fixed order and with the stated
precedences, as the AND-chain. -/
theorem claim_C2 (env : MatcherEnv) (rr : RoutingRule)
    (hd : env.domainErr rr.domain = none)
    (hg1 : env.geoipErr rr.geoip false = none)
    (hg2 : env.geoipErr [⟨"", rr.cidr⟩] false = none)
    (hg3 : env.geoipErr rr.sourceGeoip true = none)
    (hg4 : env.geoipErr [⟨"", rr.sourceCidr⟩] true = none)
    (ha : env.attrErr rr.attributes = none)
    (hne : expectedMatchers rr ≠ []) :
    RoutingRule.BuildCondition env rr = Except.ok (expectedMatchers rr) := by
  unfold RoutingRule.BuildCondition
  rw [condDomain_ok env rr [] hd, ok_bind, condUser_ok, ok_bind,
    condInboundTag_ok, ok_bind, condPort_ok, ok_bind, condNetwork_ok,
    ok_bind, condDstIP_ok env rr _ hg1 hg2, ok_bind,
    condSrcIP_ok env rr _ hg3 hg4, ok_bind, condCustomGeoip_ok, ok_bind,
    condProtocol_ok, ok_bind, condAttributes_ok env rr _ ha, ok_bind,
    condApplication_ok, ok_bind]
  have heq : [] ++ expDomain rr ++ expUser rr ++ expInboundTag rr ++
      expPort rr ++ expNetwork rr ++ expDstIP rr ++ expSrcIP rr ++
      expCustomGeoip rr ++ expProtocol rr ++ expAttributes rr ++
      expApplication rr = expectedMatchers rr := by
    simp [expectedMatchers, List.append_assoc]
  rw [heq]
  unfold finishConds
  have hlen : ¬ (expectedMatchers rr).length = 0 := by
    simp [List.length_eq_zero, hne]
  rw [if_neg hlen]

theorem claim_C2_witness :
    RoutingRule.BuildCondition
      ⟨fun _ => none, fun _ _ => none, fun _ => none⟩
      ⟨[⟨0, "example.com"⟩], [], [], none, some ⟨80, 443⟩, [],
        some ⟨[⟨1⟩]⟩, [], [⟨[10], 8⟩], [], [], [], [], "", []⟩ =
      Except.ok [Matcher.domainMatcher [⟨0, "example.com"⟩],
        Matcher.portMatcher ⟨[⟨80, 443⟩]⟩,
        Matcher.networkMatcher [⟨1⟩],
        Matcher.multiGeoIPMatcher [⟨"", [⟨[10], 8⟩]⟩] false] :=
  Eq.trans
    (claim_C2 ⟨fun _ => none, fun _ _ => none, fun _ => none⟩
      ⟨[⟨0, "example.com"⟩], [], [], none, some ⟨80, 443⟩, [],
        some ⟨[⟨1⟩]⟩, [], [⟨[10], 8⟩], [], [], [], [], "", []⟩
      rfl rfl rfl rfl rfl rfl (by decide)) rfl

/-- C6: whenever an invoked submatcher constructor fails — the domain
matcher, the destination or source GeoIP/CIDR matcher, or the attribute
matcher — BuildCondition returns a descriptive error and no Condition,
at build time. -/
theorem claim_C6 :
    (∀ (env : MatcherEnv) (rr : RoutingRule) (e : String),
      rr.domain ≠ [] → env.domainErr rr.domain = some e →
      RoutingRule.BuildCondition env rr =
        Except.error ("failed to build domain condition > " ++ e)) ∧
    (∀ (env : MatcherEnv) (rr : RoutingRule) (e : String),
      env.domainErr rr.domain = none → rr.geoip ≠ [] →
      env.geoipErr rr.geoip false = some e →
      RoutingRule.BuildCondition env rr = Except.error e) ∧
    (∀ (env : MatcherEnv) (rr : RoutingRule) (e : String),
      env.domainErr rr.domain = none →
      (∀ gs, env.geoipErr gs false = none) → rr.sourceGeoip ≠ [] →
      env.geoipErr rr.sourceGeoip true = some e →
      RoutingRule.BuildCondition env rr = Except.error e) ∧
    (∀ (env : MatcherEnv) (rr : RoutingRule) (e : String),
      env.domainErr rr.domain = none →
      (∀ gs b, env.geoipErr gs b = none) → rr.attributes ≠ "" →
      env.attrErr rr.attributes = some e →
      RoutingRule.BuildCondition env rr = Except.error e) := by
  refine ⟨?_, ?_, ?_, ?_⟩
  · intro env rr e hne he
    have s1 : condDomain env rr [] =
        Except.error ("failed to build domain condition > " ++ e) := by
      unfold condDomain
      simp [List.length_pos.mpr hne, he]
    unfold RoutingRule.BuildCondition
    rw [s1]
    rfl
  · intro env rr e hd hne he
    have sErr : ∀ c, condDstIP env rr c = Except.error e := by
      intro c; unfold condDstIP
      simp [List.length_pos.mpr hne, he]
    unfold RoutingRule.BuildCondition
    rw [condDomain_ok env rr [] hd, ok_bind, condUser_ok, ok_bind,
      condInboundTag_ok, ok_bind, condPort_ok, ok_bind, condNetwork_ok,
      ok_bind, sErr]
    rfl
  · intro env rr e hd hgall hne he
    have sErr : ∀ c, condSrcIP env rr c = Except.error e := by
      intro c; unfold condSrcIP
      simp [List.length_pos.mpr hne, he]
    unfold RoutingRule.BuildCondition
    rw [condDomain_ok env rr [] hd, ok_bind, condUser_ok, ok_bind,
      condInboundTag_ok, ok_bind, condPort_ok, ok_bind, condNetwork_ok,
      ok_bind, condDstIP_ok env rr _ (hgall rr.geoip) (hgall _), ok_bind,
      sErr]
    rfl
  · intro env rr e hd hgall hne he
    have sErr : ∀ c, condAttributes env rr c = Except.error e := by
      intro c; unfold condAttributes
      simp [(string_length_pos rr.attributes).mpr hne, he]
    unfold RoutingRule.BuildCondition
    rw [condDomain_ok env rr [] hd, ok_bind, condUser_ok, ok_bind,
      condInboundTag_ok, ok_bind, condPort_ok, ok_bind, condNetwork_ok,
      ok_bind, condDstIP_ok env rr _ (hgall rr.geoip false) (hgall _ false),
      ok_bind, condSrcIP_ok env rr _ (hgall rr.sourceGeoip true)
      (hgall _ true), ok_bind, condCustomGeoip_ok, ok_bind,
      condProtocol_ok, ok_bind, sErr]
    rfl

theorem claim_C6_witness :
    RoutingRule.BuildCondition
      ⟨fun _ => some "unterminated group", fun _ _ => none, fun _ => none⟩
      ⟨[⟨2, "("⟩], [], [], none, none, [], none, [], [], [], [], [], [],
        "", []⟩ =
      Except.error "failed to build domain condition > unterminated group" ∧
    RoutingRule.BuildCondition
      ⟨fun _ => none, fun _ _ => some "bad dest list", fun _ => none⟩
      ⟨[], [], [], none, none, [], none, [⟨"cn", []⟩], [], [], [], [], [],
        "", []⟩ =
      Except.error "bad dest list" ∧
    RoutingRule.BuildCondition
      ⟨fun _ => none, fun _ b => if b then some "bad source list" else none,
        fun _ => none⟩
      ⟨[], [], [], none, none, [], none, [], [], [⟨"us", []⟩], [], [], [],
        "", []⟩ =
      Except.error "bad source list" ∧
    RoutingRule.BuildCondition
      ⟨fun _ => none, fun _ _ => none, fun _ => some "bad expression"⟩
      ⟨[], [], [], none, none, [], none, [], [], [], [], [], [],
        "attrs:x", []⟩ =
      Except.error "bad expression" :=
  ⟨claim_C6.1 _ _ "unterminated group" (by decide) rfl,
   claim_C6.2.1 _ _ "bad dest list" rfl (by decide) rfl,
   claim_C6.2.2.1 _ _ "bad source list" rfl (fun _ => rfl) (by decide) rfl,
   claim_C6.2.2.2 _ _ "bad expression" rfl (fun _ b => by cases b <;> rfl)
     (by decide) rfl⟩

/-- The transport protocol enum of the generated internet config file. -/
inductive TransportProtocol where
  | TCP
  | UDP
  | MKCP
  | WebSocket
  | HTTP
  | DomainSocket
  deriving DecidableEq, Repr

/-- The TCP fast-open tri-state enum nested in SocketConfig. -/
inductive SocketConfig_TCPFastOpenState where
  | AsIs
  | Enable
  | Disable
  deriving DecidableEq, Repr

/-- The TProxy mode enum nested in SocketConfig. -/
inductive SocketConfig_TProxyMode where
  | Off
  | TProxy
  | Redirect
  deriving DecidableEq, Repr

/-- A serial.TypedMessage: a type URL together with opaque payload bytes. -/
structure TypedMessage where
  msgType : String
  value : List Nat
  deriving DecidableEq, Repr

structure TransportConfig where
  protocol : TransportProtocol
  protocolName : String
  settings : Option TypedMessage
  deriving DecidableEq, Repr

structure SocketConfig where
  mark : Int
  tfo : SocketConfig_TCPFastOpenState
  tproxy : SocketConfig_TProxyMode
  receiveOriginalDestAddress : Bool
  bindAddress : List Nat
  bindPort : Nat
  tos : Int
  deriving DecidableEq, Repr

structure StreamConfig where
  protocol : TransportProtocol
  protocolName : String
  transportSettings : List TransportConfig
  securityType : String
  securitySettings : List TypedMessage
  socketSettings : Option SocketConfig
  deriving DecidableEq, Repr

structure ProxyConfig where
  tag : String
  deriving DecidableEq, Repr

def TransportConfig.GetProtocol : Option TransportConfig → TransportProtocol
  | some m => m.protocol
  | none => TransportProtocol.TCP

def TransportConfig.GetProtocolName : Option TransportConfig → String
  | some m => m.protocolName
  | none => ""

def TransportConfig.GetSettings : Option TransportConfig → Option TypedMessage
  | some m => m.settings
  | none => none

def StreamConfig.GetProtocol : Option StreamConfig → TransportProtocol
  | some m => m.protocol
  | none => TransportProtocol.TCP

def StreamConfig.GetProtocolName : Option StreamConfig → String
  | some m => m.protocolName
  | none => ""

def StreamConfig.GetTransportSettings :
    Option StreamConfig → List TransportConfig
  | some m => m.transportSettings
  | none => []

def StreamConfig.GetSecurityType : Option StreamConfig → String
  | some m => m.securityType
  | none => ""

def StreamConfig.GetSecuritySettings : Option StreamConfig → List TypedMessage
  | some m => m.securitySettings
  | none => []

def StreamConfig.GetSocketSettings : Option StreamConfig → Option SocketConfig
  | some m => m.socketSettings
  | none => none

def ProxyConfig.GetTag : Option ProxyConfig → String
  | some m => m.tag
  | none => ""

def SocketConfig.GetMark : Option SocketConfig → Int
  | some m => m.mark
  | none => 0

def SocketConfig.GetTfo : Option SocketConfig → SocketConfig_TCPFastOpenState
  | some m => m.tfo
  | none => SocketConfig_TCPFastOpenState.AsIs

def SocketConfig.GetTproxy : Option SocketConfig → SocketConfig_TProxyMode
  | some m => m.tproxy
  | none => SocketConfig_TProxyMode.Off

def SocketConfig.GetReceiveOriginalDestAddress : Option SocketConfig → Bool
  | some m => m.receiveOriginalDestAddress
  | none => false

def SocketConfig.GetBindAddress : Option SocketConfig → List Nat
  | some m => m.bindAddress
  | none => []

def SocketConfig.GetBindPort : Option SocketConfig → Nat
  | some m => m.bindPort
  | none => 0

def SocketConfig.GetTos : Option SocketConfig → Int
  | some m => m.tos
  | none => 0

/-- C10: every getter of the generated transport config types is total
on a nil receiver and returns the field's zero or default value there. -/
theorem claim_C10 :
    TransportConfig.GetProtocol none = TransportProtocol.TCP ∧
    TransportConfig.GetProtocolName none = "" ∧
    TransportConfig.GetSettings none = none ∧
    StreamConfig.GetProtocol none = TransportProtocol.TCP ∧
    StreamConfig.GetProtocolName none = "" ∧
    StreamConfig.GetTransportSettings none = [] ∧
    StreamConfig.GetSecurityType none = "" ∧
    StreamConfig.GetSecuritySettings none = [] ∧
    StreamConfig.GetSocketSettings none = none ∧
    ProxyConfig.GetTag none = "" ∧
    SocketConfig.GetMark none = 0 ∧
    SocketConfig.GetTfo none = SocketConfig_TCPFastOpenState.AsIs ∧
    SocketConfig.GetTproxy none = SocketConfig_TProxyMode.Off ∧
    SocketConfig.GetReceiveOriginalDestAddress none = false ∧
    SocketConfig.GetBindAddress none = [] ∧
    SocketConfig.GetBindPort none = 0 ∧
    SocketConfig.GetTos none = 0 :=
  ⟨rfl, rfl, rfl, rfl, rfl, rfl, rfl, rfl, rfl, rfl, rfl, rfl, rfl, rfl,
   rfl, rfl, rfl⟩

end V2Ray
